import Mathlib

/-!
Verification of the dependent-search kernel of the Python Dependency
Inspector add-on (src/__init__.py, operator DEPENDENCY_INSPECTOR_OT_Find).

The operator `execute` is embedded as a pure Lean function.  Python string
primitives used by the code (`str.strip`, `str.lower`, `str.replace`,
string/tuple comparison in `sorted`) are modelled on the character list of
a `String`, matching Python semantics (code-point comparison, ASCII
case-folding) on the ASCII inputs the tool manipulates.

The `packaging` collaborators (`Requirement`, `Version`,
`SpecifierSet.contains`) and the environment enumeration
(`importlib.metadata.distributions`) are external to the repository; the
embedding is parameterised over them (`Packaging`, `Dist`), and a small
concrete instantiation (`demoPackaging`) modelled from the spec's
description of their contract is used for concrete evaluations.
-/

namespace PyDepInspector

/-- Python `str.strip()` (ASCII whitespace), on the character list. -/
def pyStrip (s : String) : String :=
  String.mk (((s.data.dropWhile Char.isWhitespace).reverse.dropWhile Char.isWhitespace).reverse)

/-- Python `str.lower()` (ASCII case folding), on the character list. -/
def pyLower (s : String) : String :=
  String.mk (s.data.map Char.toLower)

/-- Python `str.replace(a, b)` for a single-character pattern, as used by
the code for `.replace("-", "_")`. -/
def pyReplaceChar (a b : Char) (s : String) : String :=
  String.mk (s.data.map (fun c => if c = a then b else c))

/-- Python string comparison: lexicographic on code points. -/
def charListLt : List Char → List Char → Bool
  | [], [] => false
  | [], _ :: _ => true
  | _ :: _, [] => false
  | a :: as, b :: bs =>
    if a.toNat < b.toNat then true
    else if b.toNat < a.toNat then false
    else charListLt as bs

/-- Python `a < b` on strings. -/
def strLt (a b : String) : Bool := charListLt a.data b.data

/-- Python `a <= b` on strings. -/
def strLe (a b : String) : Bool := strLt a b || a == b

/-- Python tuple comparison `(a1, a2) <= (b1, b2)` for string pairs: the
order used by `sorted` on the result tuples. -/
def PairLe (x y : String × String) : Prop :=
  strLt x.1 y.1 = true ∨ (x.1 = y.1 ∧ strLe x.2 y.2 = true)

instance : DecidableRel PairLe := fun x y => by
  unfold PairLe
  infer_instance

/-- The interface of the `packaging` collaborator, as the code uses it:
`Requirement(s)` yields the requirement name and its specifier set (or a
caught `InvalidRequirement`/`AttributeError`, modelled as `none`),
`Version(s)` yields a version value (or a caught `InvalidVersion`,
modelled as `none`), `spec.contains(v, prereleases=True)` is `containsPre`
and `str(spec)` is `specStr`. -/
structure Packaging (V Sp : Type) where
  parseReq : String → Option (String × Sp)
  parseVersion : String → Option V
  containsPre : Sp → V → Bool
  specStr : Sp → String

/-- An installed distribution as exposed by `importlib.metadata`:
`dist.metadata[Name]` and `dist.requires` (a missing/None requirement list
is the empty list, which line 84 treats identically). -/
structure Dist where
  metadataName : String
  requires : List String
deriving DecidableEq

/-- The `DI_SearchProperties` property group: query fields, the result
collection (pairs of name and specifier text) and the empty-result flag. -/
structure SearchProps where
  target_package : String
  target_version : String
  results : List (String × String)
  last_search_was_empty : Bool
deriving DecidableEq

/-- The addon preferences state reaching `execute`: the version-search
toggle and the search property group. -/
structure Prefs where
  enable_version_search : Bool
  search_props : SearchProps
deriving DecidableEq

/-- An uncaught Python exception escaping the operator: when the
`packaging` import failed, line 87 `Requirement(req_string)` raises
`NameError`, and the `except (InvalidRequirement, AttributeError)` tuple
itself is an undefined name as well. -/
inductive PyError
  | nameError
deriving DecidableEq

/-- The `self.report` call made by `execute`, identified by level and
message kind; `foundInfo` records whether the message carries the
version-filter note (line 97). -/
inductive Report
  | emptyQueryWarning
  | invalidVersionError
  | foundInfo (withVersionNote : Bool)
  | noneFoundInfo
deriving DecidableEq

/-- The operator outcome: the returned set (`CANCELLED`/`FINISHED`) with
the report issued, or an uncaught exception. -/
inductive Outcome
  | cancelled (r : Report)
  | finished (r : Report)
  | raised (e : PyError)
deriving DecidableEq

/-- Lines 63 and 81: the name normalization applied to the query target
(`.lower()` then `.replace("-", "_")`) and, on line 88, to a parsed
requirement name. -/
def normalize (s : String) : String :=
  pyReplaceChar '-' '_' (pyLower s)

/-- Line 91: `str(req.specifier) or "any"` (the empty rendering is falsy). -/
def specText {V Sp : Type} (P : Packaging V Sp) (spec : Sp) : String :=
  if P.specStr spec == "" then "any" else P.specStr spec

/-- Lines 86-93, the per-requirement-string decision: parse the string,
compare the normalized requirement name with the normalized target, apply
the version filter (`not target_version_obj or
req.specifier.contains(target_version_obj, prereleases=True)`), and on a
match build the `(dist.metadata[Name], str(req.specifier) or "any")`
entry.  `none` means the string contributes nothing (parse failure, name
mismatch or version mismatch). -/
def reqEntry {V Sp : Type} (P : Packaging V Sp) (nt : String) (tvo : Option V)
    (distName req_string : String) : Option (String × String) :=
  match P.parseReq req_string with
  | none => none
  | some (name, spec) =>
    if normalize name == nt then
      if (match tvo with
          | none => true
          | some v => P.containsPre spec v) then
        some (distName, specText P spec)
      else none
    else none

/-- The inner loop over one distribution's requirement strings.  When the
`packaging` import failed (`avail = false`), reaching any requirement
string raises `NameError` (line 87). -/
def processReqs {V Sp : Type} (P : Packaging V Sp) (avail : Bool) (nt : String)
    (tvo : Option V) (distName : String) :
    List String → Except PyError (List (String × String))
  | [] => .ok []
  | s :: rest =>
    if avail then
      match reqEntry P nt tvo distName s with
      | some e =>
        match processReqs P avail nt tvo distName rest with
        | .ok l => .ok (e :: l)
        | .error err => .error err
      | none => processReqs P avail nt tvo distName rest
    else .error .nameError

/-- The outer loop over `distributions()` (lines 83-93), accumulating the
`requiring_packages` list in scan order. -/
def processDists {V Sp : Type} (P : Packaging V Sp) (avail : Bool) (nt : String)
    (tvo : Option V) : List Dist → Except PyError (List (String × String))
  | [] => .ok []
  | d :: rest =>
    match processReqs P avail nt tvo d.metadataName d.requires with
    | .error e => .error e
    | .ok xs =>
      match processDists P avail nt tvo rest with
      | .error e => .error e
      | .ok ys => .ok (xs ++ ys)

/-- Lines 70-76: the target version is parsed only when the version-search
preference is on, the stripped version string is non-empty and the
`packaging` library imported; an `InvalidVersion` becomes the error
return. -/
def parseTargetVersion {V Sp : Type} (P : Packaging V Sp) (avail enable : Bool)
    (tvs : String) : Except Unit (Option V) :=
  if enable && !(tvs == "") && avail then
    match P.parseVersion tvs with
    | some v => .ok (some v)
    | none => .error ()
  else .ok none

/-- The pure scan result (what lines 83-93 compute when no exception can
occur): all matching entries in scan order. -/
def collectReqs {V Sp : Type} (P : Packaging V Sp) (nt : String) (tvo : Option V)
    (distName : String) : List String → List (String × String)
  | [] => []
  | s :: rest =>
    match reqEntry P nt tvo distName s with
    | some e => e :: collectReqs P nt tvo distName rest
    | none => collectReqs P nt tvo distName rest

/-- The pure scan result over all distributions, in scan order. -/
def collectEntries {V Sp : Type} (P : Packaging V Sp) (nt : String) (tvo : Option V) :
    List Dist → List (String × String)
  | [] => []
  | d :: rest =>
    collectReqs P nt tvo d.metadataName d.requires ++ collectEntries P nt tvo rest

/-- `DEPENDENCY_INSPECTOR_OT_Find.execute` (lines 58-105) as a pure state
transformer: given the packaging collaborator, its availability, the
enumerated distributions and the preferences state, produce the final
preferences state and the operator outcome. -/
def execute {V Sp : Type} (P : Packaging V Sp) (avail : Bool) (dists : List Dist)
    (prefs : Prefs) : Prefs × Outcome :=
  let sp := prefs.search_props
  let target_pkg := pyLower (pyStrip sp.target_package)
  let target_ver_str := pyStrip sp.target_version
  if target_pkg = "" then
    (prefs, .cancelled .emptyQueryWarning)
  else
    match parseTargetVersion P avail prefs.enable_version_search target_ver_str with
    | .error _ => (prefs, .cancelled .invalidVersionError)
    | .ok target_version_obj =>
      let sp1 : SearchProps := { sp with results := [], last_search_was_empty := false }
      let normalized_target := pyReplaceChar '-' '_' target_pkg
      match processDists P avail normalized_target target_version_obj dists with
      | .error e => ({ prefs with search_props := sp1 }, .raised e)
      | .ok requiring_packages =>
        if requiring_packages = [] then
          ({ prefs with search_props := { sp1 with last_search_was_empty := true } },
           .finished .noneFoundInfo)
        else
          ({ prefs with search_props :=
              { sp1 with results := List.insertionSort PairLe requiring_packages } },
           .finished (.foundInfo target_version_obj.isSome))

/-- Modelled from the spec: a version value of the version-grammar
collaborator (section 6) — release segments plus an optional pre-release
number, ordered with zero-padding and pre-releases before their release. -/
structure DemoVer where
  release : List Nat
  pre : Option Nat
deriving DecidableEq

/-- All remaining release segments are zero. -/
def allZero : List Nat → Bool
  | [] => true
  | a :: as => a == 0 && allZero as

/-- Release-segment comparison with zero padding. -/
def relCmp : List Nat → List Nat → Ordering
  | [], bs => if allZero bs then .eq else .lt
  | a :: as, [] => if a == 0 then relCmp as [] else .gt
  | a :: as, b :: bs =>
    if a < b then .lt else if b < a then .gt else relCmp as bs

/-- Pre-release tag comparison: a pre-release sorts before the release. -/
def preCmp : Option Nat → Option Nat → Ordering
  | none, none => .eq
  | none, some _ => .gt
  | some _, none => .lt
  | some n, some m => if n < m then .lt else if m < n then .gt else .eq

/-- Demo version comparison. -/
def verCmp (v w : DemoVer) : Ordering :=
  match relCmp v.release w.release with
  | .eq => preCmp v.pre w.pre
  | o => o

/-- Comparison operators appearing in the demo specifiers. -/
inductive DemoOp
  | ge
  | lt
deriving DecidableEq

/-- Modelled from the spec: a version-range specifier of the
requirement-grammar collaborator (section 6) — a conjunction of
constraints plus its string rendering (empty for the unconstrained
specifier). -/
structure DemoSpec where
  constraints : List (DemoOp × DemoVer)
  text : String
deriving DecidableEq

/-- One constraint check, with pre-releases acceptable. -/
def demoSatisfies (v : DemoVer) : DemoOp × DemoVer → Bool
  | (.ge, w) => !(verCmp v w == Ordering.lt)
  | (.lt, w) => verCmp v w == Ordering.lt

/-- Modelled from the spec: `specifier.contains(version, prereleases=True)`
of the collaborator — all constraints hold. -/
def demoContains (sp : DemoSpec) (v : DemoVer) : Bool :=
  sp.constraints.all (demoSatisfies v)

/-- The unconstrained specifier (empty rendering). -/
def demoEmptySpec : DemoSpec := ⟨[], ""⟩

/-- The specifier written `>=1.0`. -/
def demoSpecGe10 : DemoSpec := ⟨[(.ge, ⟨[1, 0], none⟩)], ">=1.0"⟩

/-- The specifier written `>=2.0,<3.0`. -/
def demoSpec2030 : DemoSpec :=
  ⟨[(.ge, ⟨[2, 0], none⟩), (.lt, ⟨[3, 0], none⟩)], ">=2.0,<3.0"⟩

/-- Modelled from the spec: the requirement-string grammar of the
collaborator, instantiated on the finitely many requirement strings the
concrete evaluations use; every other string is malformed. -/
def demoParseReq : String → Option (String × DemoSpec)
  | "My-Package" => some ("My-Package", demoEmptySpec)
  | "pkg" => some ("pkg", demoEmptySpec)
  | "pkg>=1.0" => some ("pkg", demoSpecGe10)
  | "pkg>=2.0,<3.0" => some ("pkg", demoSpec2030)
  | "urllib3" => some ("urllib3", demoEmptySpec)
  | "idna" => some ("idna", demoEmptySpec)
  | _ => none

/-- The version `2.5`. -/
def demoV25 : DemoVer := ⟨[2, 5], none⟩

/-- The version `3.1`. -/
def demoV31 : DemoVer := ⟨[3, 1], none⟩

/-- The pre-release version `2.5.0a1`. -/
def demoV25a1 : DemoVer := ⟨[2, 5, 0], some 1⟩

/-- The version `1.0`. -/
def demoV10 : DemoVer := ⟨[1, 0], none⟩

/-- Modelled from the spec: the version grammar of the collaborator,
instantiated on the finitely many version strings the concrete
evaluations use; every other string is malformed. -/
def demoParseVersion : String → Option DemoVer
  | "2.5" => some demoV25
  | "3.1" => some demoV31
  | "2.5.0a1" => some demoV25a1
  | "1.0" => some demoV10
  | _ => none

/-- The demo instantiation of the packaging collaborator. -/
def demoPackaging : Packaging DemoVer DemoSpec :=
  ⟨demoParseReq, demoParseVersion, demoContains, DemoSpec.text⟩

/-- A preferences state with the given query fields and no prior results. -/
def demoPrefs (pkg ver : String) (enable : Bool) : Prefs :=
  ⟨enable, ⟨pkg, ver, [], false⟩⟩

theorem char_toNat_inj {a b : Char} (h : a.toNat = b.toNat) : a = b := by
  apply Char.ext
  exact UInt32.ext h

theorem charListLt_trichotomy :
    ∀ as bs : List Char, charListLt as bs = true ∨ as = bs ∨ charListLt bs as = true := by
  intro as
  induction as with
  | nil =>
    intro bs
    cases bs with
    | nil => exact Or.inr (Or.inl rfl)
    | cons b bs => exact Or.inl rfl
  | cons a as ih =>
    intro bs
    cases bs with
    | nil => exact Or.inr (Or.inr rfl)
    | cons b bs =>
      rcases Nat.lt_trichotomy a.toNat b.toNat with h | h | h
      · left
        simp [charListLt, h]
      · rcases ih bs with h2 | h2 | h2
        · left
          simp [charListLt, h, h2]
        · right
          left
          rw [char_toNat_inj h, h2]
        · right
          right
          simp [charListLt, h, h2]
      · right
        right
        simp [charListLt, h]

theorem charListLt_trans :
    ∀ as bs cs : List Char,
      charListLt as bs = true → charListLt bs cs = true → charListLt as cs = true := by
  intro as
  induction as with
  | nil =>
    intro bs cs hab hbc
    cases bs with
    | nil => exact hbc
    | cons b bs =>
      cases cs with
      | nil => simp [charListLt] at hbc
      | cons c cs => rfl
  | cons a as ih =>
    intro bs cs hab hbc
    cases bs with
    | nil => simp [charListLt] at hab
    | cons b bs =>
      cases cs with
      | nil => simp [charListLt] at hbc
      | cons c cs =>
        simp only [charListLt] at hab hbc ⊢
        rcases Nat.lt_trichotomy a.toNat b.toNat with h1 | h1 | h1
        · rcases Nat.lt_trichotomy b.toNat c.toNat with h2 | h2 | h2
          · simp [Nat.lt_trans h1 h2]
          · rw [← h2]
            simp [h1]
          · simp [h2, Nat.lt_asymm h2] at hbc
        · rcases Nat.lt_trichotomy b.toNat c.toNat with h2 | h2 | h2
          · simp [h1, h2]
          · simp only [h1, h2, Nat.lt_irrefl, if_false] at hab hbc ⊢
            exact ih bs cs hab hbc
          · simp [h2, Nat.lt_asymm h2] at hbc
        · simp [h1, Nat.lt_asymm h1] at hab

theorem string_eq_of_data_eq {a b : String} (h : a.data = b.data) : a = b := by
  cases a
  cases b
  exact congrArg String.mk h

theorem strLt_trichotomy (a b : String) :
    strLt a b = true ∨ a = b ∨ strLt b a = true := by
  rcases charListLt_trichotomy a.data b.data with h | h | h
  · exact Or.inl h
  · exact Or.inr (Or.inl (string_eq_of_data_eq h))
  · exact Or.inr (Or.inr h)

instance : IsTotal (String × String) PairLe := by
  constructor
  intro x y
  rcases strLt_trichotomy x.1 y.1 with h | h | h
  · exact Or.inl (Or.inl h)
  · rcases strLt_trichotomy x.2 y.2 with h2 | h2 | h2
    · exact Or.inl (Or.inr ⟨h, by simp [strLe, h2]⟩)
    · exact Or.inl (Or.inr ⟨h, by simp [strLe, h2]⟩)
    · exact Or.inr (Or.inr ⟨h.symm, by simp [strLe, h2]⟩)
  · exact Or.inr (Or.inl h)

theorem strLt_trans {a b c : String} (h1 : strLt a b = true) (h2 : strLt b c = true) :
    strLt a c = true :=
  charListLt_trans a.data b.data c.data h1 h2

theorem strLe_trans {a b c : String} (h1 : strLe a b = true) (h2 : strLe b c = true) :
    strLe a c = true := by
  simp only [strLe, Bool.or_eq_true, beq_iff_eq] at h1 h2 ⊢
  rcases h1 with h1 | h1
  · rcases h2 with h2 | h2
    · exact Or.inl (strLt_trans h1 h2)
    · exact Or.inl (h2 ▸ h1)
  · rcases h2 with h2 | h2
    · exact Or.inl (h1 ▸ h2)
    · exact Or.inr (h1.trans h2)

instance : IsTrans (String × String) PairLe := by
  constructor
  intro x y z hxy hyz
  rcases hxy with h1 | ⟨e1, l1⟩
  · rcases hyz with h2 | ⟨e2, l2⟩
    · exact Or.inl (strLt_trans h1 h2)
    · exact Or.inl (e2 ▸ h1)
  · rcases hyz with h2 | ⟨e2, l2⟩
    · exact Or.inl (e1 ▸ h2)
    · exact Or.inr ⟨e1.trans e2, strLe_trans l1 l2⟩

theorem processReqs_avail {V Sp : Type} (P : Packaging V Sp) (nt : String) (tvo : Option V)
    (dn : String) : ∀ l : List String,
    processReqs P true nt tvo dn l = .ok (collectReqs P nt tvo dn l) := by
  intro l
  induction l with
  | nil => rfl
  | cons s rest ih =>
    simp only [processReqs, collectReqs, if_true]
    cases h : reqEntry P nt tvo dn s with
    | none => simpa [h] using ih
    | some e => simp [h, ih]

theorem processDists_avail {V Sp : Type} (P : Packaging V Sp) (nt : String) (tvo : Option V) :
    ∀ ds : List Dist,
    processDists P true nt tvo ds = .ok (collectEntries P nt tvo ds) := by
  intro ds
  induction ds with
  | nil => rfl
  | cons d rest ih =>
    simp [processDists, collectEntries, processReqs_avail, ih]

theorem collectReqs_skip {V Sp : Type} (P : Packaging V Sp) (nt : String) (tvo : Option V)
    (dn bad : String) (hbad : P.parseReq bad = none) :
    ∀ pre post : List String,
      collectReqs P nt tvo dn (pre ++ bad :: post) = collectReqs P nt tvo dn (pre ++ post) := by
  intro pre
  induction pre with
  | nil =>
    intro post
    simp only [List.nil_append, collectReqs, reqEntry, hbad]
  | cons s rest ih =>
    intro post
    cases h : reqEntry P nt tvo dn s <;> simp [collectReqs, h, ih post]

theorem collectReqs_nil {V Sp : Type} (P : Packaging V Sp) (nt : String) (tvo : Option V)
    (dn : String) : ∀ l : List String,
    (∀ s ∈ l, reqEntry P nt tvo dn s = none) → collectReqs P nt tvo dn l = [] := by
  intro l
  induction l with
  | nil => intro _; rfl
  | cons s rest ih =>
    intro h
    simp only [collectReqs, h s (by simp)]
    exact ih (fun x hx => h x (by simp [hx]))

theorem collectEntries_nil {V Sp : Type} (P : Packaging V Sp) (nt : String) (tvo : Option V) :
    ∀ ds : List Dist,
    (∀ d ∈ ds, ∀ s ∈ d.requires, reqEntry P nt tvo d.metadataName s = none) →
      collectEntries P nt tvo ds = [] := by
  intro ds
  induction ds with
  | nil => intro _; rfl
  | cons d rest ih =>
    intro h
    simp only [collectEntries]
    rw [collectReqs_nil P nt tvo d.metadataName d.requires (h d (by simp)),
      ih (fun x hx => h x (by simp [hx]))]
    rfl

theorem execute_empty_query {V Sp : Type} (P : Packaging V Sp) (avail : Bool)
    (dists : List Dist) (prefs : Prefs)
    (h : pyLower (pyStrip prefs.search_props.target_package) = "") :
    execute P avail dists prefs = (prefs, .cancelled .emptyQueryWarning) := by
  simp [execute, h]

theorem execute_invalid_version {V Sp : Type} (P : Packaging V Sp) (avail : Bool)
    (dists : List Dist) (prefs : Prefs)
    (h : ¬ pyLower (pyStrip prefs.search_props.target_package) = "")
    (hv : parseTargetVersion P avail prefs.enable_version_search
        (pyStrip prefs.search_props.target_version) = .error ()) :
    execute P avail dists prefs = (prefs, .cancelled .invalidVersionError) := by
  simp [execute, h, hv]

theorem execute_raised_eq {V Sp : Type} (P : Packaging V Sp) (avail : Bool)
    (dists : List Dist) (prefs : Prefs) (tvo : Option V) (e : PyError)
    (h : ¬ pyLower (pyStrip prefs.search_props.target_package) = "")
    (hv : parseTargetVersion P avail prefs.enable_version_search
        (pyStrip prefs.search_props.target_version) = .ok tvo)
    (hp : processDists P avail (normalize (pyStrip prefs.search_props.target_package)) tvo
        dists = .error e) :
    execute P avail dists prefs =
      ({ prefs with search_props :=
          { prefs.search_props with results := [], last_search_was_empty := false } },
       .raised e) := by
  simp [execute, normalize, h, hv] at hp ⊢
  simp [hp]

theorem execute_scan {V Sp : Type} (P : Packaging V Sp) (avail : Bool)
    (dists : List Dist) (prefs : Prefs) (tvo : Option V) (entries : List (String × String))
    (h : ¬ pyLower (pyStrip prefs.search_props.target_package) = "")
    (hv : parseTargetVersion P avail prefs.enable_version_search
        (pyStrip prefs.search_props.target_version) = .ok tvo)
    (hp : processDists P avail (normalize (pyStrip prefs.search_props.target_package)) tvo
        dists = .ok entries) :
    execute P avail dists prefs =
      if entries = [] then
        ({ prefs with search_props :=
            { prefs.search_props with results := [], last_search_was_empty := true } },
         .finished .noneFoundInfo)
      else
        ({ prefs with search_props :=
            { prefs.search_props with
                results := List.insertionSort PairLe entries,
                last_search_was_empty := false } },
         .finished (.foundInfo tvo.isSome)) := by
  simp [normalize] at hp
  simp [execute, h, hv, hp]

theorem parseTargetVersion_disabled {V Sp : Type} (P : Packaging V Sp) (avail : Bool)
    (tvs : String) : parseTargetVersion P avail false tvs = .ok none := by
  simp [parseTargetVersion]

theorem parseTargetVersion_ok_of_parse {V Sp : Type} (P : Packaging V Sp)
    (avail enable : Bool) (tvs : String) (v : V) (hv : P.parseVersion tvs = some v) :
    parseTargetVersion P avail enable tvs = .ok (some v) ∨
      parseTargetVersion P avail enable tvs = .ok none := by
  unfold parseTargetVersion
  split
  · simp [hv]
  · simp

theorem execute_no_invalid_of_ok {V Sp : Type} (P : Packaging V Sp) (avail : Bool)
    (dists : List Dist) (prefs : Prefs) (tvo : Option V)
    (hpkg : ¬ pyLower (pyStrip prefs.search_props.target_package) = "")
    (hver : parseTargetVersion P avail prefs.enable_version_search
        (pyStrip prefs.search_props.target_version) = .ok tvo) :
    (execute P avail dists prefs).2 ≠ Outcome.cancelled Report.invalidVersionError := by
  cases hp : processDists P avail (normalize (pyStrip prefs.search_props.target_package)) tvo
      dists with
  | error e =>
    rw [execute_raised_eq P avail dists prefs tvo e hpkg hver hp]
    simp
  | ok entries =>
    rw [execute_scan P avail dists prefs tvo entries hpkg hver hp]
    by_cases he : entries = [] <;> simp [he]

theorem execute_avail_no_raise {V Sp : Type} (P : Packaging V Sp) (dists : List Dist)
    (prefs : Prefs) (e : PyError) :
    (execute P true dists prefs).2 ≠ Outcome.raised e := by
  by_cases h : pyLower (pyStrip prefs.search_props.target_package) = ""
  · rw [execute_empty_query P true dists prefs h]
    simp
  · cases hver : parseTargetVersion P true prefs.enable_version_search
        (pyStrip prefs.search_props.target_version) with
    | error u =>
      cases u
      rw [execute_invalid_version P true dists prefs h hver]
      simp
    | ok tvo =>
      rw [execute_scan P true dists prefs tvo _ h hver
        (processDists_avail P (normalize (pyStrip prefs.search_props.target_package)) tvo dists)]
      by_cases he : collectEntries P (normalize (pyStrip prefs.search_props.target_package)) tvo
          dists = [] <;> simp [he]

theorem collectEntries_skip {V Sp : Type} (P : Packaging V Sp) (nt : String) (tvo : Option V)
    (dn bad : String) (hbad : P.parseReq bad = none) (pre post : List String) :
    ∀ dists1 dists2 : List Dist,
      collectEntries P nt tvo (dists1 ++ ⟨dn, pre ++ bad :: post⟩ :: dists2) =
        collectEntries P nt tvo (dists1 ++ ⟨dn, pre ++ post⟩ :: dists2) := by
  intro dists1
  induction dists1 with
  | nil =>
    intro dists2
    simp [collectEntries, collectReqs_skip P nt tvo dn bad hbad pre post]
  | cons d rest ih =>
    intro dists2
    simp [collectEntries, ih dists2]

/-- C1: the claim that, whether or not the packaging library is available,
every condition other than the two user-input errors resolves to a
successful result, fails on the code: with the import unavailable, the
scan of a single ordinary distribution raises `NameError` past the
operator boundary (line 87 names the undefined `Requirement`, and the
`except` tuple of line 92 is itself an undefined name). -/
theorem C1_unavailable_lib_raises :
    (execute demoPackaging false [⟨"requests", ["urllib3"]⟩]
        (demoPrefs "urllib3" "" false)).2 = Outcome.raised PyError.nameError := by
  decide

/-- C2: name matching is insensitive to case and to hyphen/underscore —
with the target normalized as on lines 63 and 81, a parsed requirement
whose normalized name equals the normalized target passes the name check
(its inclusion then decided by the version filter alone), and one whose
normalized name differs is skipped. -/
theorem C2_name_normalization {V Sp : Type} (P : Packaging V Sp)
    (q s dn name : String) (spec : Sp) (tvo : Option V)
    (hp : P.parseReq s = some (name, spec)) :
    (normalize name = normalize (pyStrip q) →
      reqEntry P (normalize (pyStrip q)) tvo dn s =
        (if (match tvo with
             | none => true
             | some v => P.containsPre spec v) then some (dn, specText P spec)
         else none)) ∧
    (normalize name ≠ normalize (pyStrip q) →
      reqEntry P (normalize (pyStrip q)) tvo dn s = none) := by
  constructor
  · intro h
    simp [reqEntry, hp, h]
  · intro h
    simp [reqEntry, hp, h]

/-- C2 witness: a requirement string `My-Package` matches the query
`my_package`, and a requirement on a different name is skipped. -/
theorem C2_name_normalization_witness :
    reqEntry demoPackaging (normalize (pyStrip "my_package")) (none : Option DemoVer)
        "SomeApp" "My-Package" = some ("SomeApp", "any") ∧
    reqEntry demoPackaging (normalize (pyStrip "my_package")) (none : Option DemoVer)
        "SomeApp" "idna" = none := by
  constructor
  · have h := (C2_name_normalization demoPackaging "my_package" "My-Package" "SomeApp"
      "My-Package" demoEmptySpec none (by decide)).1 (by decide)
    rw [h]
    decide
  · exact (C2_name_normalization demoPackaging "my_package" "idna" "SomeApp"
      "idna" demoEmptySpec none (by decide)).2 (by decide)

/-- C3: for a name-matching requirement, with no target version it is
included whatever its specifier; with a target version it is included
exactly when the specifier contains that version with pre-releases
allowed (line 89). -/
theorem C3_version_filter {V Sp : Type} (P : Packaging V Sp) (nt s dn name : String)
    (spec : Sp) (hp : P.parseReq s = some (name, spec)) (hn : normalize name = nt) :
    reqEntry P nt none dn s = some (dn, specText P spec) ∧
    ∀ v : V, reqEntry P nt (some v) dn s =
      (if P.containsPre spec v then some (dn, specText P spec) else none) := by
  constructor
  · simp [reqEntry, hp, hn]
  · intro v
    simp [reqEntry, hp, hn]

/-- C3 witness: the specifier `>=2.0,<3.0` admits version `2.5` and
rejects `3.1`; the pre-release `2.5.0a1` matches an unconstrained
specifier; without a target version the constrained requirement is
included as well. -/
theorem C3_version_filter_witness :
    reqEntry demoPackaging "pkg" (some demoV25) "app" "pkg>=2.0,<3.0" =
      some ("app", ">=2.0,<3.0") ∧
    reqEntry demoPackaging "pkg" (some demoV31) "app" "pkg>=2.0,<3.0" = none ∧
    reqEntry demoPackaging "pkg" (some demoV25a1) "app" "pkg" = some ("app", "any") ∧
    reqEntry demoPackaging "pkg" (none : Option DemoVer) "app" "pkg>=2.0,<3.0" =
      some ("app", ">=2.0,<3.0") := by
  refine ⟨?_, ?_, ?_, ?_⟩
  · rw [(C3_version_filter demoPackaging "pkg" "pkg>=2.0,<3.0" "app" "pkg" demoSpec2030
      (by decide) (by decide)).2 demoV25]
    decide
  · rw [(C3_version_filter demoPackaging "pkg" "pkg>=2.0,<3.0" "app" "pkg" demoSpec2030
      (by decide) (by decide)).2 demoV31]
    decide
  · rw [(C3_version_filter demoPackaging "pkg" "pkg" "app" "pkg" demoEmptySpec
      (by decide) (by decide)).2 demoV25a1]
    decide
  · rw [(C3_version_filter demoPackaging "pkg" "pkg>=2.0,<3.0" "app" "pkg" demoSpec2030
      (by decide) (by decide)).1]
    decide

/-- C4 counterexample: for dependents (zeta, any), (alpha, >=1.0),
(alpha, any) the code's `sorted` (code-point tuple order) places
(alpha, >=1.0) before (alpha, any) because the code point of the
greater-than sign is below that of the letter a — not after, as the
claim's example asserts. -/
theorem C4_example_order_counterexample :
    (execute demoPackaging true [⟨"zeta", ["pkg"]⟩, ⟨"alpha", ["pkg>=1.0", "pkg"]⟩]
        (demoPrefs "pkg" "" false)).1.search_props.results =
      [("alpha", ">=1.0"), ("alpha", "any"), ("zeta", "any")] ∧
    (execute demoPackaging true [⟨"zeta", ["pkg"]⟩, ⟨"alpha", ["pkg>=1.0", "pkg"]⟩]
        (demoPrefs "pkg" "" false)).1.search_props.results ≠
      [("alpha", "any"), ("alpha", ">=1.0"), ("zeta", "any")] := by
  decide

/-- C4 amended: on every successful search the displayed result list is
sorted ascending by the (dependentName, specifierText) tuple order and is
a permutation of the scan list (so duplicate entries from multiple
requirement lines are preserved, not merged); the example order of the
claim is corrected to [(alpha, >=1.0), (alpha, any), (zeta, any)]. -/
theorem C4_results_sorted {V Sp : Type} (P : Packaging V Sp) (avail : Bool)
    (dists : List Dist) (prefs : Prefs) (r : Report)
    (hf : (execute P avail dists prefs).2 = Outcome.finished r) :
    List.Sorted PairLe (execute P avail dists prefs).1.search_props.results ∧
    ∃ (tvo : Option V) (entries : List (String × String)),
      parseTargetVersion P avail prefs.enable_version_search
          (pyStrip prefs.search_props.target_version) = .ok tvo ∧
      processDists P avail (normalize (pyStrip prefs.search_props.target_package)) tvo
          dists = .ok entries ∧
      List.Perm (execute P avail dists prefs).1.search_props.results entries := by
  by_cases h : pyLower (pyStrip prefs.search_props.target_package) = ""
  · rw [execute_empty_query P avail dists prefs h] at hf
    simp at hf
  · cases hver : parseTargetVersion P avail prefs.enable_version_search
        (pyStrip prefs.search_props.target_version) with
    | error u =>
      cases u
      rw [execute_invalid_version P avail dists prefs h hver] at hf
      simp at hf
    | ok tvo =>
      cases hp : processDists P avail (normalize (pyStrip prefs.search_props.target_package))
          tvo dists with
      | error e =>
        rw [execute_raised_eq P avail dists prefs tvo e h hver hp] at hf
        simp at hf
      | ok entries =>
        have hx := execute_scan P avail dists prefs tvo entries h hver hp
        by_cases he : entries = []
        · rw [hx, if_pos he]
          exact ⟨List.sorted_nil, tvo, entries, rfl, hp, by simp [he]⟩
        · rw [hx, if_neg he]
          exact ⟨List.sorted_insertionSort PairLe entries, tvo, entries, rfl, hp,
            List.perm_insertionSort PairLe entries⟩

/-- C4 amended witness: the successful demo search has sorted results
that permute the scan list. -/
theorem C4_results_sorted_witness :
    List.Sorted PairLe (execute demoPackaging true
        [⟨"zeta", ["pkg"]⟩, ⟨"alpha", ["pkg>=1.0", "pkg"]⟩]
        (demoPrefs "pkg" "" false)).1.search_props.results ∧
    ∃ (tvo : Option DemoVer) (entries : List (String × String)),
      parseTargetVersion demoPackaging true (demoPrefs "pkg" "" false).enable_version_search
          (pyStrip (demoPrefs "pkg" "" false).search_props.target_version) = .ok tvo ∧
      processDists demoPackaging true
          (normalize (pyStrip (demoPrefs "pkg" "" false).search_props.target_package)) tvo
          [⟨"zeta", ["pkg"]⟩, ⟨"alpha", ["pkg>=1.0", "pkg"]⟩] = .ok entries ∧
      List.Perm (execute demoPackaging true
          [⟨"zeta", ["pkg"]⟩, ⟨"alpha", ["pkg>=1.0", "pkg"]⟩]
          (demoPrefs "pkg" "" false)).1.search_props.results entries :=
  C4_results_sorted demoPackaging true [⟨"zeta", ["pkg"]⟩, ⟨"alpha", ["pkg>=1.0", "pkg"]⟩]
    (demoPrefs "pkg" "" false) (Report.foundInfo false) (by decide)

/-- C5: find is atomic on error — a CANCELLED outcome (EmptyQuery or
InvalidVersionFormat) leaves the entire preferences state untouched, and
a FINISHED outcome carries exactly the sorted list of a complete scan,
never a partial one. -/
theorem C5_atomic_on_error {V Sp : Type} (P : Packaging V Sp) (avail : Bool)
    (dists : List Dist) (prefs : Prefs) :
    (∀ r : Report, (execute P avail dists prefs).2 = Outcome.cancelled r →
      (execute P avail dists prefs).1 = prefs) ∧
    (∀ r : Report, (execute P avail dists prefs).2 = Outcome.finished r →
      ∃ (tvo : Option V) (entries : List (String × String)),
        processDists P avail (normalize (pyStrip prefs.search_props.target_package)) tvo
            dists = .ok entries ∧
        (execute P avail dists prefs).1.search_props.results =
          List.insertionSort PairLe entries) := by
  constructor
  · intro r hr
    by_cases h : pyLower (pyStrip prefs.search_props.target_package) = ""
    · rw [execute_empty_query P avail dists prefs h]
    · cases hver : parseTargetVersion P avail prefs.enable_version_search
          (pyStrip prefs.search_props.target_version) with
      | error u =>
        cases u
        rw [execute_invalid_version P avail dists prefs h hver]
      | ok tvo =>
        cases hp : processDists P avail
            (normalize (pyStrip prefs.search_props.target_package)) tvo dists with
        | error e =>
          rw [execute_raised_eq P avail dists prefs tvo e h hver hp] at hr
          simp at hr
        | ok entries =>
          rw [execute_scan P avail dists prefs tvo entries h hver hp] at hr
          by_cases he : entries = []
          · rw [if_pos he] at hr
            simp at hr
          · rw [if_neg he] at hr
            simp at hr
  · intro r hr
    by_cases h : pyLower (pyStrip prefs.search_props.target_package) = ""
    · rw [execute_empty_query P avail dists prefs h] at hr
      simp at hr
    · cases hver : parseTargetVersion P avail prefs.enable_version_search
          (pyStrip prefs.search_props.target_version) with
      | error u =>
        cases u
        rw [execute_invalid_version P avail dists prefs h hver] at hr
        simp at hr
      | ok tvo =>
        cases hp : processDists P avail
            (normalize (pyStrip prefs.search_props.target_package)) tvo dists with
        | error e =>
          rw [execute_raised_eq P avail dists prefs tvo e h hver hp] at hr
          simp at hr
        | ok entries =>
          have hx := execute_scan P avail dists prefs tvo entries h hver hp
          by_cases he : entries = []
          · rw [hx, if_pos he]
            exact ⟨tvo, entries, hp, by simp [he]⟩
          · rw [hx, if_neg he]
            exact ⟨tvo, entries, hp, by simp⟩

/-- C5 witness: a blank (whitespace) query cancels with the warning and
leaves a previously populated result state exactly as it was. -/
theorem C5_atomic_on_error_witness :
    (execute demoPackaging true []
        (⟨true, ⟨" ", "1.0", [("old", "any")], false⟩⟩ : Prefs)).1 =
      (⟨true, ⟨" ", "1.0", [("old", "any")], false⟩⟩ : Prefs) :=
  (C5_atomic_on_error demoPackaging true []
    ⟨true, ⟨" ", "1.0", [("old", "any")], false⟩⟩).1 Report.emptyQueryWarning (by decide)

/-- C6 counterexample: the claim fails as stated on two inputs — with
the packaging import unavailable, version search enabled and the
unparsable version string `not-a-version`, find completes as a successful
zero-result search instead of failing with InvalidVersionFormat (line 71
also guards version parsing behind PACKAGING_LIB_AVAILABLE); and with a
blank package name the EmptyQuery warning fires before the version string
is ever examined. -/
theorem C6_unavailable_no_version_error :
    ((execute demoPackaging false [] (demoPrefs "numpy" "not-a-version" true)).2 =
        Outcome.finished Report.noneFoundInfo ∧
      (execute demoPackaging false [] (demoPrefs "numpy" "not-a-version" true)).2 ≠
        Outcome.cancelled Report.invalidVersionError) ∧
    ((execute demoPackaging true [] (demoPrefs " " "not-a-version" true)).2 =
        Outcome.cancelled Report.emptyQueryWarning ∧
      (execute demoPackaging true [] (demoPrefs " " "not-a-version" true)).2 ≠
        Outcome.cancelled Report.invalidVersionError) := by
  decide

/-- C6 amended: with the parsing collaborator available and a non-blank
package name, a non-empty target-version string that does not parse makes
find fail with InvalidVersionFormat when version search is enabled, and a
parsable version string never produces that error. -/
theorem C6_invalid_version {V Sp : Type} (P : Packaging V Sp) (dists : List Dist)
    (prefs : Prefs)
    (hpkg : ¬ pyLower (pyStrip prefs.search_props.target_package) = "") :
    (prefs.enable_version_search = true →
      ¬ pyStrip prefs.search_props.target_version = "" →
      P.parseVersion (pyStrip prefs.search_props.target_version) = none →
      (execute P true dists prefs).2 = Outcome.cancelled Report.invalidVersionError) ∧
    (∀ v : V, P.parseVersion (pyStrip prefs.search_props.target_version) = some v →
      (execute P true dists prefs).2 ≠ Outcome.cancelled Report.invalidVersionError) := by
  constructor
  · intro he hv hbad
    have hver : parseTargetVersion P true prefs.enable_version_search
        (pyStrip prefs.search_props.target_version) = .error () := by
      simp [parseTargetVersion, he, hv, hbad]
    rw [execute_invalid_version P true dists prefs hpkg hver]
  · intro v hv
    rcases parseTargetVersion_ok_of_parse P true prefs.enable_version_search
        (pyStrip prefs.search_props.target_version) v hv with hver | hver
    · exact execute_no_invalid_of_ok P true dists prefs (some v) hpkg hver
    · exact execute_no_invalid_of_ok P true dists prefs none hpkg hver

/-- C6 amended witness: `not-a-version` is rejected with the
InvalidVersionFormat error, while the parsable `2.5` is not. -/
theorem C6_invalid_version_witness :
    (execute demoPackaging true [] (demoPrefs "numpy" "not-a-version" true)).2 =
      Outcome.cancelled Report.invalidVersionError ∧
    (execute demoPackaging true [] (demoPrefs "numpy" "2.5" true)).2 ≠
      Outcome.cancelled Report.invalidVersionError := by
  constructor
  · exact (C6_invalid_version demoPackaging [] (demoPrefs "numpy" "not-a-version" true)
      (by decide)).1 rfl (by decide) (by decide)
  · exact (C6_invalid_version demoPackaging [] (demoPrefs "numpy" "2.5" true)
      (by decide)).2 demoV25 (by decide)

/-- C7: a malformed requirement string is skipped exactly — with the
library available, an environment in which some distribution's
requirement list contains an unparsable string yields the identical final
state and outcome as the same environment with that single string
removed, and the scan never raises. -/
theorem C7_malformed_skipped {V Sp : Type} (P : Packaging V Sp) (prefs : Prefs)
    (dists1 dists2 : List Dist) (dn bad : String) (pre post : List String)
    (hbad : P.parseReq bad = none) :
    execute P true (dists1 ++ ⟨dn, pre ++ bad :: post⟩ :: dists2) prefs =
      execute P true (dists1 ++ ⟨dn, pre ++ post⟩ :: dists2) prefs ∧
    ∀ e : PyError,
      (execute P true (dists1 ++ ⟨dn, pre ++ bad :: post⟩ :: dists2) prefs).2 ≠
        Outcome.raised e := by
  constructor
  · by_cases h : pyLower (pyStrip prefs.search_props.target_package) = ""
    · rw [execute_empty_query P true _ prefs h, execute_empty_query P true _ prefs h]
    · cases hver : parseTargetVersion P true prefs.enable_version_search
          (pyStrip prefs.search_props.target_version) with
      | error u =>
        cases u
        rw [execute_invalid_version P true _ prefs h hver,
          execute_invalid_version P true _ prefs h hver]
      | ok tvo =>
        rw [execute_scan P true _ prefs tvo _ h hver
            (processDists_avail P (normalize (pyStrip prefs.search_props.target_package)) tvo
              (dists1 ++ ⟨dn, pre ++ bad :: post⟩ :: dists2)),
          execute_scan P true _ prefs tvo _ h hver
            (processDists_avail P (normalize (pyStrip prefs.search_props.target_package)) tvo
              (dists1 ++ ⟨dn, pre ++ post⟩ :: dists2)),
          collectEntries_skip P (normalize (pyStrip prefs.search_props.target_package)) tvo
            dn bad hbad pre post dists1 dists2]
  · intro e
    exact execute_avail_no_raise P (dists1 ++ ⟨dn, pre ++ bad :: post⟩ :: dists2) prefs e

/-- C7 witness: inserting the unparsable string into the single
distribution's requirement list changes nothing about the search. -/
theorem C7_malformed_skipped_witness :
    execute demoPackaging true [⟨"app", ["???bad", "pkg"]⟩] (demoPrefs "pkg" "" false) =
      execute demoPackaging true [⟨"app", ["pkg"]⟩] (demoPrefs "pkg" "" false) := by
  have h := (C7_malformed_skipped demoPackaging (demoPrefs "pkg" "" false) [] [] "app"
    "???bad" [] ["pkg"] (by decide)).1
  simpa using h

/-- C8: when no installed distribution declares a matching requirement on
the target, a completed search returns the empty list, sets the
empty-result flag and reports the no-dependents message — distinguishing
it from the initial no-search state; a search producing at least one
entry leaves the flag unset. -/
theorem C8_empty_result_flag {V Sp : Type} (P : Packaging V Sp) (dists : List Dist)
    (prefs : Prefs) (tvo : Option V)
    (hpkg : ¬ pyLower (pyStrip prefs.search_props.target_package) = "")
    (hver : parseTargetVersion P true prefs.enable_version_search
        (pyStrip prefs.search_props.target_version) = .ok tvo) :
    ((∀ d ∈ dists, ∀ s ∈ d.requires,
        reqEntry P (normalize (pyStrip prefs.search_props.target_package)) tvo
          d.metadataName s = none) →
      (execute P true dists prefs).1.search_props.results = [] ∧
      (execute P true dists prefs).1.search_props.last_search_was_empty = true ∧
      (execute P true dists prefs).2 = Outcome.finished Report.noneFoundInfo) ∧
    ((execute P true dists prefs).1.search_props.results ≠ [] →
      (execute P true dists prefs).1.search_props.last_search_was_empty = false) := by
  have hx := execute_scan P true dists prefs tvo _ hpkg hver
    (processDists_avail P (normalize (pyStrip prefs.search_props.target_package)) tvo dists)
  constructor
  · intro hnone
    have hc := collectEntries_nil P (normalize (pyStrip prefs.search_props.target_package))
      tvo dists hnone
    rw [hx, if_pos hc]
    exact ⟨rfl, rfl, rfl⟩
  · intro hne
    by_cases he : collectEntries P (normalize (pyStrip prefs.search_props.target_package))
        tvo dists = []
    · rw [hx, if_pos he] at hne
      simp at hne
    · rw [hx, if_neg he]

/-- C8 witness: an environment whose only requirement is on a different
package yields the empty list, the set flag and the zero-result report. -/
theorem C8_empty_result_flag_witness :
    (execute demoPackaging true [⟨"requests", ["idna"]⟩]
        (demoPrefs "pkg" "" false)).1.search_props.results = [] ∧
    (execute demoPackaging true [⟨"requests", ["idna"]⟩]
        (demoPrefs "pkg" "" false)).1.search_props.last_search_was_empty = true ∧
    (execute demoPackaging true [⟨"requests", ["idna"]⟩]
        (demoPrefs "pkg" "" false)).2 = Outcome.finished Report.noneFoundInfo :=
  (C8_empty_result_flag demoPackaging [⟨"requests", ["idna"]⟩] (demoPrefs "pkg" "" false)
    none (by decide) rfl).1 (by decide)

/-- C9: with version search disabled the target-version string is never
consulted â two runs that differ only in that string produce the same
result list, the same empty-result flag and the same outcome, with no
version-related error. -/
theorem C9_version_not_consulted {V Sp : Type} (P : Packaging V Sp) (avail : Bool)
    (dists : List Dist) (e : Bool) (tp tv1 tv2 : String)
    (res : List (String × String)) (flag : Bool) (hd : e = false) :
    (execute P avail dists ⟨e, ⟨tp, tv1, res, flag⟩⟩).1.search_props.results =
      (execute P avail dists ⟨e, ⟨tp, tv2, res, flag⟩⟩).1.search_props.results ∧
    (execute P avail dists ⟨e, ⟨tp, tv1, res, flag⟩⟩).1.search_props.last_search_was_empty =
      (execute P avail dists ⟨e, ⟨tp, tv2, res, flag⟩⟩).1.search_props.last_search_was_empty ∧
    (execute P avail dists ⟨e, ⟨tp, tv1, res, flag⟩⟩).2 =
      (execute P avail dists ⟨e, ⟨tp, tv2, res, flag⟩⟩).2 := by
  subst hd
  have hver1 : parseTargetVersion P avail
      ((⟨false, ⟨tp, tv1, res, flag⟩⟩ : Prefs)).enable_version_search
      (pyStrip ((⟨false, ⟨tp, tv1, res, flag⟩⟩ : Prefs)).search_props.target_version) =
      .ok (none : Option V) :=
    parseTargetVersion_disabled P avail (pyStrip tv1)
  have hver2 : parseTargetVersion P avail
      ((⟨false, ⟨tp, tv2, res, flag⟩⟩ : Prefs)).enable_version_search
      (pyStrip ((⟨false, ⟨tp, tv2, res, flag⟩⟩ : Prefs)).search_props.target_version) =
      .ok (none : Option V) :=
    parseTargetVersion_disabled P avail (pyStrip tv2)
  by_cases h : pyLower (pyStrip tp) = ""
  · rw [execute_empty_query P avail dists ⟨false, ⟨tp, tv1, res, flag⟩⟩ h,
      execute_empty_query P avail dists ⟨false, ⟨tp, tv2, res, flag⟩⟩ h]
    exact ⟨rfl, rfl, rfl⟩
  · cases hp : processDists P avail (normalize (pyStrip tp)) (none : Option V) dists with
    | error err =>
      rw [execute_raised_eq P avail dists ⟨false, ⟨tp, tv1, res, flag⟩⟩ none err h hver1 hp,
        execute_raised_eq P avail dists ⟨false, ⟨tp, tv2, res, flag⟩⟩ none err h hver2 hp]
      exact ⟨rfl, rfl, rfl⟩
    | ok entries =>
      rw [execute_scan P avail dists ⟨false, ⟨tp, tv1, res, flag⟩⟩ none entries h hver1 hp,
        execute_scan P avail dists ⟨false, ⟨tp, tv2, res, flag⟩⟩ none entries h hver2 hp]
      by_cases he : entries = []
      · rw [if_pos he, if_pos he]
        exact ⟨rfl, rfl, rfl⟩
      · rw [if_neg he, if_neg he]
        exact ⟨rfl, rfl, rfl⟩

/-- C9 witness: with version search disabled, the version strings `1.0`
and `garbage` give the same results, flag and outcome. -/
theorem C9_version_not_consulted_witness :
    (execute demoPackaging true [⟨"app", ["pkg>=1.0"]⟩]
        ⟨false, ⟨"pkg", "1.0", [], false⟩⟩).1.search_props.results =
      (execute demoPackaging true [⟨"app", ["pkg>=1.0"]⟩]
        ⟨false, ⟨"pkg", "garbage", [], false⟩⟩).1.search_props.results ∧
    (execute demoPackaging true [⟨"app", ["pkg>=1.0"]⟩]
        ⟨false, ⟨"pkg", "1.0", [], false⟩⟩).1.search_props.last_search_was_empty =
      (execute demoPackaging true [⟨"app", ["pkg>=1.0"]⟩]
        ⟨false, ⟨"pkg", "garbage", [], false⟩⟩).1.search_props.last_search_was_empty ∧
    (execute demoPackaging true [⟨"app", ["pkg>=1.0"]⟩]
        ⟨false, ⟨"pkg", "1.0", [], false⟩⟩).2 =
      (execute demoPackaging true [⟨"app", ["pkg>=1.0"]⟩]
        ⟨false, ⟨"pkg", "garbage", [], false⟩⟩).2 :=
  C9_version_not_consulted demoPackaging true [⟨"app", ["pkg>=1.0"]⟩] false "pkg"
    "1.0" "garbage" [] false rfl

/-- C10: with the collaborator available, version search enabled and a
whitespace-only target-version string, find does not fail with
InvalidVersionFormat and its results are the unfiltered, name-only
matches (sorted). -/
theorem C10_whitespace_version {V Sp : Type} (P : Packaging V Sp) (dists : List Dist)
    (prefs : Prefs)
    (_henable : prefs.enable_version_search = true)
    (hpkg : ¬ pyLower (pyStrip prefs.search_props.target_package) = "")
    (hws : pyStrip prefs.search_props.target_version = "") :
    (execute P true dists prefs).2 ≠ Outcome.cancelled Report.invalidVersionError ∧
    (execute P true dists prefs).1.search_props.results =
      List.insertionSort PairLe
        (collectEntries P (normalize (pyStrip prefs.search_props.target_package)) none
          dists) := by
  have hver : parseTargetVersion P true prefs.enable_version_search
      (pyStrip prefs.search_props.target_version) = .ok none := by
    simp [parseTargetVersion, hws]
  have hx := execute_scan P true dists prefs none _ hpkg hver
    (processDists_avail P (normalize (pyStrip prefs.search_props.target_package)) none dists)
  constructor
  · exact execute_no_invalid_of_ok P true dists prefs none hpkg hver
  · by_cases he : collectEntries P (normalize (pyStrip prefs.search_props.target_package))
        none dists = []
    · rw [hx, if_pos he, he]
      rfl
    · rw [hx, if_neg he]

/-- C10 witness: a whitespace-only version string with version search on
is treated as no version — no error, and the constrained requirement on
the target still matches by name alone. -/
theorem C10_whitespace_version_witness :
    (execute demoPackaging true [⟨"app", ["pkg>=1.0"]⟩] (demoPrefs "pkg" "   " true)).2 ≠
      Outcome.cancelled Report.invalidVersionError ∧
    (execute demoPackaging true [⟨"app", ["pkg>=1.0"]⟩]
        (demoPrefs "pkg" "   " true)).1.search_props.results =
      List.insertionSort PairLe
        (collectEntries demoPackaging
          (normalize (pyStrip (demoPrefs "pkg" "   " true).search_props.target_package)) none
          [⟨"app", ["pkg>=1.0"]⟩]) :=
  C10_whitespace_version demoPackaging [⟨"app", ["pkg>=1.0"]⟩] (demoPrefs "pkg" "   " true)
    rfl (by decide) (by decide)

end PyDepInspector
